import Mathlib

/-!
Verification of the memcached client connection layer
(src/protocol/connection/client_connection.h) against its specification.

The header declares the data model (Frame, DocumentInfo, Document,
MutationInfo, ConnectionError, MemcachedConnection, ConnectionMap) and
gives inline bodies for Frame::reset, the default setSynchronous and the
default ioctl_get / ioctl_set.  The bodies of the remaining operations
(the protected constructor, hello, clone, sendPartialFrame and the
ConnectionMap operations) are not present in the repository sources, so
those are modelled from the specification, as marked on each definition.

All failures in the C++ code are reported through exceptions; here every
fallible operation returns `Except CxxException`, where `CxxException`
records the dynamic class of the thrown C++ exception object.
-/

/-- Wire protocols supported by the client, from `enum class Protocol`
in client_connection.h. -/
inductive Protocol : Type where
  | Memcached : Protocol
  | Greenstack : Protocol
deriving DecidableEq, Repr

/-- Dynamic classes of the exception objects that the connection layer
throws: `ConnectionError` (declared in client_connection.h as publicly
deriving from `std::runtime_error`) and the standard-library classes
`std::runtime_error`, `std::logic_error`, `std::invalid_argument` and
their common base `std::exception`. -/
inductive CxxExcClass : Type where
  | exception : CxxExcClass
  | logicError : CxxExcClass
  | invalidArgument : CxxExcClass
  | runtimeError : CxxExcClass
  | connectionError : CxxExcClass
deriving DecidableEq, Repr

/-- Direct base class of each exception class.  `connectionError`'s base is
`runtimeError`, from `class ConnectionError : public std::runtime_error` in
client_connection.h; the bases of the std classes are fixed by the C++
standard library. -/
def directBase : CxxExcClass → Option CxxExcClass
  | .exception => none
  | .logicError => some .exception
  | .invalidArgument => some .logicError
  | .runtimeError => some .exception
  | .connectionError => some .runtimeError

/-- All superclasses of a class, itself included: the reflexive-transitive
closure of `directBase` (spelled out per class; `superclasses_directBase`
checks it against `directBase`). -/
def superclasses : CxxExcClass → List CxxExcClass
  | .exception => [.exception]
  | .logicError => [.logicError, .exception]
  | .invalidArgument => [.invalidArgument, .logicError, .exception]
  | .runtimeError => [.runtimeError, .exception]
  | .connectionError => [.connectionError, .runtimeError, .exception]

/-- The spelled-out superclass lists agree with the declared direct bases. -/
theorem superclasses_directBase (c : CxxExcClass) :
    superclasses c = c :: ((directBase c).map superclasses).getD [] := by
  cases c <;> rfl

/-- Whether class `c` is `d` or publicly derives (transitively) from `d`;
a C++ `catch (d&)` clause catches an exception of dynamic class `c` exactly
when this holds. -/
def isSubclassOf (c d : CxxExcClass) : Bool :=
  (superclasses c).contains d

/-- A thrown C++ exception: its dynamic class and its `what()` string. -/
structure CxxException : Type where
  cls : CxxExcClass
  what : String
deriving DecidableEq, Repr

/-- A `try` block with a sequence of `catch` clauses (given by the caught
class of each clause, in order) dispatches a thrown exception to the first
clause whose class is a superclass of the exception's dynamic class. -/
def firstCatch (handlers : List CxxExcClass) (e : CxxException) :
    Option CxxExcClass :=
  handlers.find? (fun h => isSubclassOf e.cls h)

/-- The Frame class: all of the data of one protocol unit going over the
wire, held in `std::vector<uint8_t> payload`.  Bytes are modelled as `Nat`
values (the claims never depend on the 8-bit bound). -/
structure Frame : Type where
  payload : List Nat
deriving DecidableEq, Repr

/-- `std::vector::resize(n)`: truncates to the first `n` elements, or pads
with value-initialized (zero) elements up to length `n`. -/
def vectorResize (v : List Nat) (n : Nat) : List Nat :=
  if n ≤ v.length then v.take n else v ++ List.replicate (n - v.length) 0

/-- `Frame::reset()`, from client_connection.h: `payload.resize(0)`. -/
def Frame.reset (f : Frame) : Frame :=
  { payload := vectorResize f.payload 0 }

/-- The connection state held by a `MemcachedConnection`: the target
parameters (host, port, address family, TLS flag, protocol tag), whether
the transport is currently established, the synchronous-mode flag and the
SASL mechanism list learned from the server.  The address family
(`sa_family_t`) and port (`in_port_t`) are modelled as `Nat`. -/
structure ConnState : Type where
  host : String
  port : Nat
  family : Nat
  ssl : Bool
  protocol : Protocol
  connected : Bool
  synchronous : Bool
  saslMechanisms : String
deriving DecidableEq, Repr

/-- Modelled from the spec: the body of the protected `MemcachedConnection`
constructor is not under src/ (only its declaration).  Per the header and
the spec, a connection is constructed with the given target parameters,
not yet connected, set into synchronous mode by default, and with no SASL
mechanism list (the list is only learned from the server by a successful
`hello()`). -/
def mkConnection (host : String) (port : Nat) (family : Nat) (ssl : Bool)
    (protocol : Protocol) : ConnState :=
  { host := host, port := port, family := family, ssl := ssl,
    protocol := protocol, connected := false, synchronous := true,
    saslMechanisms := "" }

/-- The default `MemcachedConnection::setSynchronous(bool enable)` body
from client_connection.h, reproduced faithfully: when `enable` is false
it evaluates the expression
`std::runtime_error("MemcachedConnection::setSynchronous: Not implemented");`
which merely CONSTRUCTS a temporary exception object — there is no
`throw` — and then returns normally; the connection state (including the
`synchronous` member) is left untouched on every path. -/
def setSynchronous (st : ConnState) (enable : Bool) :
    Except CxxException ConnState :=
  if !enable then
    let «_discardedTemporary» : CxxException :=
      ⟨.runtimeError, "MemcachedConnection::setSynchronous: Not implemented"⟩
    Except.ok st
  else
    Except.ok st

/-- The default `MemcachedConnection::ioctl_get` body from
client_connection.h: `throw std::invalid_argument("Not implemented");`. -/
def ioctl_get (_st : ConnState) (_key : String) :
    Except CxxException String :=
  Except.error ⟨.invalidArgument, "Not implemented"⟩

/-- The default `MemcachedConnection::ioctl_set` body from
client_connection.h: `throw std::invalid_argument("Not implemented");`. -/
def ioctl_set (_st : ConnState) (_key _value : String) :
    Except CxxException Unit :=
  Except.error ⟨.invalidArgument, "Not implemented"⟩

/-- `MemcachedConnection::getSaslMechanisms()` from client_connection.h:
returns the `saslMechanisms` member. -/
def getSaslMechanisms (st : ConnState) : String :=
  st.saslMechanisms

/-- Modelled from the spec: `hello()` is pure virtual and its protocol
implementations are not under src/.  Per the spec it identifies the client
to the server; on success it populates the SASL mechanism list retrievable
via `getSaslMechanisms()`, and it fails with a generic error
(`std::runtime_error`) if the server does not support negotiation (no
mechanism list is advertised).  The server's side of the exchange is the
`serverMechs` argument: `none` when the server does not support the
handshake, otherwise the advertised mechanism list. -/
def hello (st : ConnState) (_userAgent _userAgentVersion _comment : String)
    (serverMechs : Option String) : Except CxxException ConnState :=
  match serverMechs with
  | none => Except.error ⟨.runtimeError, "hello: not supported by server"⟩
  | some mechs =>
      if mechs = "" then
        Except.error ⟨.runtimeError, "hello: no mechanisms advertised"⟩
      else
        Except.ok { st with saslMechanisms := mechs }

/-- Modelled from the spec: the body of
`MemcachedConnection::sendPartialFrame(Frame&, Frame::size_type)` is not
under src/ (only its declaration and documentation).  Per the spec it
transmits exactly `length` bytes, which must not exceed the frame's
current size, and mutates the frame in place so that the sent bytes are
deleted from the front and only the unsent remainder is left.  The result
carries the transmitted bytes and the mutated frame. -/
def sendPartialFrame (f : Frame) (length : Nat) :
    Except CxxException (List Nat × Frame) :=
  if length ≤ f.payload.length then
    Except.ok (f.payload.take length, { payload := f.payload.drop length })
  else
    Except.error ⟨.runtimeError, "sendPartialFrame: length exceeds frame size"⟩

/-- C3: For every Frame, regardless of its prior payload contents, calling
`reset()` leaves the frame with payload size 0: the frame is emptied in
place. -/
theorem frame_reset_empties (f : Frame) :
    (Frame.reset f).payload = [] ∧ (Frame.reset f).payload.length = 0 := by
  constructor
  · simp [Frame.reset, vectorResize]
  · simp [Frame.reset, vectorResize]

/-- C1 (code evaluation at the failing input): the base-class default
`setSynchronous(false)` does NOT fail.  The body constructs a
`std::runtime_error` temporary but never throws it, so the call returns
normally and the connection state — in particular its `synchronous`
flag — is unchanged, contradicting the spec's requirement that a protocol
implementation that cannot support asynchronous operation must reject
disabling synchronous mode with a failure. -/
theorem setSynchronous_false_silently_succeeds (st : ConnState) :
    setSynchronous st false = Except.ok st ∧
    (∀ e : CxxException, setSynchronous st false ≠ Except.error e) := by
  refine ⟨rfl, ?_⟩
  intro e h
  simp [setSynchronous] at h

/-- C4: For every key (and for ioctl_set, every value), the default
implementations of `ioctl_get` and `ioctl_set` always fail by throwing a
`std::invalid_argument` exception — the invalid-argument classification —
and never return a value or succeed. -/
theorem ioctl_defaults_invalid_argument (st : ConnState) (key value : String) :
    ioctl_get st key = Except.error ⟨.invalidArgument, "Not implemented"⟩ ∧
    ioctl_set st key value =
      Except.error ⟨.invalidArgument, "Not implemented"⟩ ∧
    (∀ r : String, ioctl_get st key ≠ Except.ok r) ∧
    (∀ u : Unit, ioctl_set st key value ≠ Except.ok u) := by
  refine ⟨rfl, rfl, ?_, ?_⟩
  · intro r h
    simp [ioctl_get] at h
  · intro u h
    simp [ioctl_set] at h

/-- C2: For every Frame F and every length L with L ≤ size(F), a successful
`sendPartialFrame(F, L)` transmits exactly L bytes and mutates F in place
so that afterwards F contains exactly size(F) - L bytes, and those bytes
equal the original trailing size(F) - L bytes of F (the unsent
remainder). -/
theorem sendPartialFrame_spec (f f' : Frame) (L : Nat) (sent : List Nat)
    (hL : L ≤ f.payload.length)
    (h : sendPartialFrame f L = Except.ok (sent, f')) :
    sent.length = L ∧
    f'.payload.length = f.payload.length - L ∧
    f'.payload = f.payload.drop L ∧
    sent ++ f'.payload = f.payload := by
  rw [sendPartialFrame, if_pos hL] at h
  have hsent : sent = f.payload.take L := by
    have := congrArg (fun r => match r with
      | Except.ok (s, _) => s
      | _ => sent) h
    simpa using this.symm
  have hf' : f' = { payload := f.payload.drop L } := by
    have := congrArg (fun r => match r with
      | Except.ok (_, g) => g
      | _ => f') h
    simpa using this.symm
  subst hsent
  subst hf'
  refine ⟨?_, ?_, rfl, ?_⟩
  · simpa using Nat.min_eq_left hL
  · simp
  · simp

/-- C2 witness: a concrete successful partial send of 2 bytes out of a
4-byte frame leaves the 2 trailing bytes. -/
theorem sendPartialFrame_spec_witness :
    ([10, 20] : List Nat).length = 2 ∧
    (Frame.mk [30, 40]).payload.length = (Frame.mk [10, 20, 30, 40]).payload.length - 2 ∧
    (Frame.mk [30, 40]).payload = (Frame.mk [10, 20, 30, 40]).payload.drop 2 ∧
    [10, 20] ++ (Frame.mk [30, 40]).payload = (Frame.mk [10, 20, 30, 40]).payload :=
  sendPartialFrame_spec (Frame.mk [10, 20, 30, 40]) (Frame.mk [30, 40]) 2
    [10, 20] (by decide) (by rfl)

/-- C5: For every MemcachedConnection, `getSaslMechanisms()` returns an
empty result on a freshly constructed connection (before any `hello()`
call), and returns a non-empty mechanism list after a `hello()` call that
succeeded. -/
theorem saslMechanisms_empty_before_nonempty_after_hello
    (host : String) (port family : Nat) (ssl : Bool) (protocol : Protocol)
    (st st' : ConnState) (ua uav comment : String)
    (serverMechs : Option String) :
    getSaslMechanisms (mkConnection host port family ssl protocol) = "" ∧
    (hello st ua uav comment serverMechs = Except.ok st' →
      getSaslMechanisms st' ≠ "") := by
  constructor
  · rfl
  · intro h
    match serverMechs with
    | none => simp [hello] at h
    | some mechs =>
        by_cases hm : mechs = ""
        · rw [hello] at h
          simp [hm] at h
        · rw [hello] at h
          simp only [hm, if_false] at h
          have : st' = { st with saslMechanisms := mechs } := by
            cases h
            rfl
          rw [this]
          simpa [getSaslMechanisms] using hm

/-- C5 witness: a fresh connection reports no SASL mechanisms, and after a
concrete successful `hello` that learned "PLAIN" the list is non-empty. -/
theorem saslMechanisms_empty_before_nonempty_after_hello_witness :
    getSaslMechanisms
      (mkConnection "localhost" 11210 2 false Protocol.Memcached) = "" ∧
    getSaslMechanisms
      { mkConnection "localhost" 11210 2 false Protocol.Memcached with
        saslMechanisms := "PLAIN" } ≠ "" := by
  have h := saslMechanisms_empty_before_nonempty_after_hello
    "localhost" 11210 2 false Protocol.Memcached
    (mkConnection "localhost" 11210 2 false Protocol.Memcached)
    ({ mkConnection "localhost" 11210 2 false Protocol.Memcached with
       saslMechanisms := "PLAIN" })
    "testapp" "1.0" "" (some "PLAIN")
  exact ⟨h.1, h.2 (by rfl)⟩

/-- Whether a thrown exception is a protocol-level `ConnectionError`
(the server explicitly rejected the operation). -/
def CxxException.isConnectionError (e : CxxException) : Bool :=
  e.cls == CxxExcClass.connectionError

/-- Whether a thrown exception is a generic failure: one of the plain
standard-library exception classes the connection layer uses for
transport-level and precondition problems (`std::runtime_error`,
`std::logic_error`, `std::invalid_argument`, `std::exception`). -/
def CxxException.isGenericFailure (e : CxxException) : Bool :=
  e.cls == CxxExcClass.runtimeError || e.cls == CxxExcClass.logicError ||
  e.cls == CxxExcClass.invalidArgument || e.cls == CxxExcClass.exception

/-- A fallible operation result raises at most one exception per failing
execution, and that exception is classified as a `ConnectionError` or as a
generic failure but never as both. -/
def raisesOneErrorClass {α : Type} (r : Except CxxException α) : Prop :=
  ∀ e : CxxException, r = Except.error e →
    (e.isConnectionError = true ∨ e.isGenericFailure = true) ∧
    ¬(e.isConnectionError = true ∧ e.isGenericFailure = true)

/-- Every exception value falls in exactly one of the two classes. -/
theorem exc_class_exclusive (e : CxxException) :
    (e.isConnectionError = true ∨ e.isGenericFailure = true) ∧
    ¬(e.isConnectionError = true ∧ e.isGenericFailure = true) := by
  cases e with
  | mk cls w =>
      cases cls <;>
        simp [CxxException.isConnectionError, CxxException.isGenericFailure]

/-- The attributes by which a connection held in a `ConnectionMap` is
selected: protocol tag, TLS flag, address family and port. -/
structure ConnEntry : Type where
  protocol : Protocol
  ssl : Bool
  family : Nat
  port : Nat
deriving DecidableEq, Repr

/-- The matching predicate of `ConnectionMap::getConnection`: protocol,
TLS flag and address family must match; a port of 0 is "unspecified" and
matches any port, a nonzero port must match exactly. -/
def connMatches (c : ConnEntry) (p : Protocol) (s : Bool)
    (fam pt : Nat) : Bool :=
  c.protocol == p && c.ssl == s && c.family == fam &&
    (pt == 0 || c.port == pt)

/-- Modelled from the spec: the body of `ConnectionMap::getConnection` is
not under src/ (only its declaration and documentation).  Per the spec it
is a linear lookup over the held connections; a port of 0 matches any
entry with the requested protocol/ssl/family; when no held connection
matches, it fails with a generic lookup error (the header documents
`@throws std::runtime_error if the request can't be served`). -/
def getConnection (m : List ConnEntry) (p : Protocol) (s : Bool)
    (fam pt : Nat) : Except CxxException ConnEntry :=
  match m.find? (fun c => connMatches c p s fam pt) with
  | some c => Except.ok c
  | none => Except.error ⟨.runtimeError, "Connection not found"⟩

/-- Modelled from the spec: the body of `ConnectionMap::initialize` is not
under src/ (only its declaration).  Per the spec it constructs and stores
one connection per distinct (protocol, TLS, family, port) combination in
the server port descriptor, without connecting them, replacing the map's
prior contents. -/
def initializeMap (ports : List ConnEntry) : List ConnEntry :=
  ports.dedup

/-- The mutating operations of a `ConnectionMap`. -/
inductive MapOp : Type where
  | init (ports : List ConnEntry) : MapOp
  | invalidate : MapOp

/-- Effect of one `ConnectionMap` operation on the held connections:
`initialize` rebuilds the map from a port descriptor; `invalidate` closes
and discards every held connection. -/
def applyMapOp (_m : List ConnEntry) : MapOp → List ConnEntry
  | MapOp.init ports => initializeMap ports
  | MapOp.invalidate => []

/-- The held connections after running a sequence of `ConnectionMap`
operations starting from the empty (freshly constructed) map. -/
def runMapOps (ops : List MapOp) : List ConnEntry :=
  ops.foldl applyMapOp []

theorem connMatches_iff (c : ConnEntry) (p : Protocol) (s : Bool)
    (fam pt : Nat) :
    connMatches c p s fam pt = true ↔
      (c.protocol = p ∧ c.ssl = s ∧ c.family = fam ∧
        (pt = 0 ∨ c.port = pt)) := by
  simp [connMatches, Bool.and_eq_true, Bool.or_eq_true, and_assoc]

theorem getConnection_ok_mem_match {m : List ConnEntry} {p : Protocol}
    {s : Bool} {fam pt : Nat} {c : ConnEntry}
    (h : getConnection m p s fam pt = Except.ok c) :
    c ∈ m ∧ connMatches c p s fam pt = true := by
  cases hf : m.find? (fun x => connMatches x p s fam pt) with
  | none => simp [getConnection, hf] at h
  | some a =>
      simp [getConnection, hf] at h
      subst h
      refine ⟨List.mem_of_find?_eq_some hf, ?_⟩
      simpa using List.find?_some hf

theorem getConnection_no_match {m : List ConnEntry} {p : Protocol}
    {s : Bool} {fam pt : Nat}
    (hall : ∀ c ∈ m, connMatches c p s fam pt = false) :
    getConnection m p s fam pt =
      Except.error ⟨.runtimeError, "Connection not found"⟩ := by
  have hf : m.find? (fun c => connMatches c p s fam pt) = none := by
    apply List.find?_eq_none.mpr
    intro a ha
    simp [hall a ha]
  simp [getConnection, hf]

/-- C7: For every ConnectionMap state, `getConnection(protocol, ssl,
family, port)` returns (when it succeeds) a held connection whose
protocol, TLS flag and address family match the arguments, and whose port
also matches whenever the port argument is nonzero (explicit); and
whenever no held connection matches, the call fails with a generic lookup
error (`std::runtime_error`) rather than returning a connection. -/
theorem getConnection_lookup_spec (m : List ConnEntry) (p : Protocol)
    (s : Bool) (fam pt : Nat) :
    (∀ c, getConnection m p s fam pt = Except.ok c →
      c ∈ m ∧ c.protocol = p ∧ c.ssl = s ∧ c.family = fam ∧
        (pt ≠ 0 → c.port = pt)) ∧
    ((∀ c ∈ m, connMatches c p s fam pt = false) →
      getConnection m p s fam pt =
        Except.error ⟨.runtimeError, "Connection not found"⟩) := by
  constructor
  · intro c h
    rcases getConnection_ok_mem_match h with ⟨hm, hmt⟩
    rcases (connMatches_iff c p s fam pt).mp hmt with ⟨h1, h2, h3, h4⟩
    refine ⟨hm, h1, h2, h3, ?_⟩
    intro hpt
    rcases h4 with h4 | h4
    · exact absurd h4 hpt
    · exact h4
  · exact getConnection_no_match

/-- C7 witness: on a concrete one-entry map the explicit-port lookup
returns the held matching entry, and a lookup no entry matches fails with
the generic lookup error. -/
theorem getConnection_lookup_spec_witness :
    ((⟨Protocol.Memcached, false, 2, 11210⟩ : ConnEntry) ∈
        [(⟨Protocol.Memcached, false, 2, 11210⟩ : ConnEntry)] ∧
      (⟨Protocol.Memcached, false, 2, 11210⟩ : ConnEntry).protocol =
        Protocol.Memcached ∧
      (⟨Protocol.Memcached, false, 2, 11210⟩ : ConnEntry).ssl = false ∧
      (⟨Protocol.Memcached, false, 2, 11210⟩ : ConnEntry).family = 2 ∧
      (11210 ≠ 0 →
        (⟨Protocol.Memcached, false, 2, 11210⟩ : ConnEntry).port = 11210)) ∧
    getConnection [(⟨Protocol.Memcached, false, 2, 11210⟩ : ConnEntry)]
        Protocol.Greenstack true 2 0 =
      Except.error ⟨.runtimeError, "Connection not found"⟩ := by
  constructor
  · exact (getConnection_lookup_spec
      [⟨Protocol.Memcached, false, 2, 11210⟩]
      Protocol.Memcached false 2 11210).1
      ⟨Protocol.Memcached, false, 2, 11210⟩ (by rfl)
  · exact (getConnection_lookup_spec
      [⟨Protocol.Memcached, false, 2, 11210⟩]
      Protocol.Greenstack true 2 0).2 (by decide)

theorem countP_le_one_of_unique (t : ConnEntry) (f : ConnEntry → Bool)
    (hf : ∀ c, f c = true → c = t) :
    ∀ l : List ConnEntry, l.Nodup → l.countP f ≤ 1 := by
  intro l
  induction l with
  | nil => intro _; simp
  | cons a as ih =>
      intro hl
      rcases List.nodup_cons.mp hl with ⟨ha, has⟩
      by_cases hfa : f a = true
      · have hat : a = t := hf a hfa
        have hzero : as.countP f = 0 := by
          apply List.countP_eq_zero.mpr
          intro b hb hfb
          have hbt : b = t := hf b hfb
          exact ha ((hat.trans hbt.symm) ▸ hb)
        rw [List.countP_cons_of_pos f as hfa, hzero]
      · rw [List.countP_cons_of_neg f as hfa]
        exact ih has

theorem foldl_applyMapOp_nodup (ops : List MapOp) :
    ∀ m : List ConnEntry, m.Nodup → (ops.foldl applyMapOp m).Nodup := by
  induction ops with
  | nil => intro m hm; simpa using hm
  | cons op rest ih =>
      intro m hm
      rw [List.foldl_cons]
      apply ih
      cases op with
      | init ports =>
          simpa [applyMapOp, initializeMap] using List.nodup_dedup ports
      | invalidate => simp [applyMapOp]

theorem runMapOps_nodup (ops : List MapOp) : (runMapOps ops).Nodup :=
  foldl_applyMapOp_nodup ops [] List.nodup_nil

/-- C8: After any sequence of ConnectionMap operations (initialize,
invalidate) starting from a fresh map, at most one held connection matches
any given (protocol, TLS, address family, port) tuple when the port is
explicit (nonzero); and with port unspecified (zero), whichever held
connection `getConnection` returns matches the requested
protocol/TLS/family. -/
theorem connectionMap_at_most_one_match (ops : List MapOp) (p : Protocol)
    (s : Bool) (fam pt : Nat) (hp : pt ≠ 0) :
    (runMapOps ops).countP (fun c => connMatches c p s fam pt) ≤ 1 ∧
    (∀ c, getConnection (runMapOps ops) p s fam 0 = Except.ok c →
      c ∈ runMapOps ops ∧ c.protocol = p ∧ c.ssl = s ∧ c.family = fam) := by
  constructor
  · apply countP_le_one_of_unique ⟨p, s, fam, pt⟩
    · intro c hc
      rcases (connMatches_iff c p s fam pt).mp hc with ⟨h1, h2, h3, h4⟩
      rcases h4 with h4 | h4
      · exact absurd h4 hp
      · cases c
        simp_all
    · exact runMapOps_nodup ops
  · intro c h
    rcases getConnection_ok_mem_match h with ⟨hm, hmt⟩
    rcases (connMatches_iff c p s fam 0).mp hmt with ⟨h1, h2, h3, _⟩
    exact ⟨hm, h1, h2, h3⟩

/-- C8 witness: initializing with a descriptor that repeats the same
(protocol, TLS, family, port) combination still leaves at most one
matching held connection. -/
theorem connectionMap_at_most_one_match_witness :
    (runMapOps [MapOp.init
        [⟨Protocol.Memcached, false, 2, 11210⟩,
         ⟨Protocol.Memcached, false, 2, 11210⟩,
         ⟨Protocol.Memcached, true, 2, 11207⟩]]).countP
      (fun c => connMatches c Protocol.Memcached false 2 11210) ≤ 1 :=
  (connectionMap_at_most_one_match
    [MapOp.init
      [⟨Protocol.Memcached, false, 2, 11210⟩,
       ⟨Protocol.Memcached, false, 2, 11210⟩,
       ⟨Protocol.Memcached, true, 2, 11207⟩]]
    Protocol.Memcached false 2 11210 (by decide)).1

/-- The ways a `MemcachedConnection` can come into existence.  The header
deletes the default constructor (`MemcachedConnection() = delete`) and the
copy constructor (`MemcachedConnection(const MemcachedConnection&) =
delete`), so the only introduction forms are the protected parameterized
constructor and `clone()`; this inductive has exactly those two
constructors. -/
inductive ConnCtor : Type where
  | fromParams (host : String) (port family : Nat) (ssl : Bool)
      (protocol : Protocol) : ConnCtor
  | cloneOf (source : ConnState) : ConnCtor

/-- Modelled from the spec: `clone()` is pure virtual and its protocol
implementations are not under src/.  Per the header comment and the spec,
`clone()` creates a second independent channel to memcached: a new
connection sharing the same logical target parameters (host, port, family,
TLS flag, protocol) but its own transport and session state — it never
copies live session state. -/
def construct : ConnCtor → ConnState
  | ConnCtor.fromParams h p f s pr => mkConnection h p f s pr
  | ConnCtor.cloneOf c => mkConnection c.host c.port c.family c.ssl c.protocol

/-- C9: A MemcachedConnection can never be default-constructed or
copy-constructed (every construction event is either the protected
parameterized constructor or a clone), and `clone()` produces a new
independent instance: it equals a freshly constructed connection with the
source's target parameters — same host, port, family, TLS flag and
protocol — but is unconnected with no session (SASL) state, rather than a
copy sharing transport state. -/
theorem connection_construction_forms (k : ConnCtor) (c : ConnState) :
    ((∃ h p f s pr, k = ConnCtor.fromParams h p f s pr) ∨
      (∃ c0, k = ConnCtor.cloneOf c0)) ∧
    construct (ConnCtor.cloneOf c) =
      mkConnection c.host c.port c.family c.ssl c.protocol ∧
    (construct (ConnCtor.cloneOf c)).host = c.host ∧
    (construct (ConnCtor.cloneOf c)).port = c.port ∧
    (construct (ConnCtor.cloneOf c)).family = c.family ∧
    (construct (ConnCtor.cloneOf c)).ssl = c.ssl ∧
    (construct (ConnCtor.cloneOf c)).protocol = c.protocol ∧
    (construct (ConnCtor.cloneOf c)).connected = false ∧
    (construct (ConnCtor.cloneOf c)).saslMechanisms = "" := by
  refine ⟨?_, rfl, rfl, rfl, rfl, rfl, rfl, rfl, rfl⟩
  cases k with
  | fromParams h p f s pr => exact Or.inl ⟨h, p, f, s, pr, rfl⟩
  | cloneOf c0 => exact Or.inr ⟨c0, rfl⟩

/-- C10: Every ConnectionError is itself a std::runtime_error (the class
publicly derives from it), so a handler catching the generic-failure class
std::runtime_error also catches every ConnectionError: the two classes are
not disjoint, and with the runtime_error handler first the ConnectionError
handler is never reached, so a caller must catch ConnectionError first to
distinguish the two. -/
theorem connectionError_is_runtime_error (e : CxxException)
    (he : e.cls = CxxExcClass.connectionError) :
    isSubclassOf CxxExcClass.connectionError CxxExcClass.runtimeError = true ∧
    isSubclassOf CxxExcClass.connectionError
      CxxExcClass.connectionError = true ∧
    firstCatch [CxxExcClass.runtimeError] e =
      some CxxExcClass.runtimeError ∧
    firstCatch [CxxExcClass.runtimeError, CxxExcClass.connectionError] e =
      some CxxExcClass.runtimeError ∧
    firstCatch [CxxExcClass.connectionError, CxxExcClass.runtimeError] e =
      some CxxExcClass.connectionError ∧
    (∀ e2 : CxxException, e2.cls = CxxExcClass.runtimeError →
      firstCatch [CxxExcClass.connectionError, CxxExcClass.runtimeError] e2 =
        some CxxExcClass.runtimeError) := by
  refine ⟨by decide, by decide, ?_, ?_, ?_, ?_⟩
  · simp [firstCatch, he, isSubclassOf, superclasses]
  · simp [firstCatch, he, isSubclassOf, superclasses]
  · simp [firstCatch, he, isSubclassOf, superclasses]
  · intro e2 he2
    simp [firstCatch, he2, isSubclassOf, superclasses]

/-- C10 witness: a concrete thrown ConnectionError is caught by a
runtime_error handler, is shadowed when the runtime_error handler comes
first, and is distinguished when the ConnectionError handler comes
first. -/
theorem connectionError_is_runtime_error_witness :
    isSubclassOf CxxExcClass.connectionError CxxExcClass.runtimeError = true ∧
    isSubclassOf CxxExcClass.connectionError
      CxxExcClass.connectionError = true ∧
    firstCatch [CxxExcClass.runtimeError]
      ⟨CxxExcClass.connectionError, "rejected"⟩ =
      some CxxExcClass.runtimeError ∧
    firstCatch [CxxExcClass.runtimeError, CxxExcClass.connectionError]
      ⟨CxxExcClass.connectionError, "rejected"⟩ =
      some CxxExcClass.runtimeError ∧
    firstCatch [CxxExcClass.connectionError, CxxExcClass.runtimeError]
      ⟨CxxExcClass.connectionError, "rejected"⟩ =
      some CxxExcClass.connectionError ∧
    (∀ e2 : CxxException, e2.cls = CxxExcClass.runtimeError →
      firstCatch [CxxExcClass.connectionError, CxxExcClass.runtimeError] e2 =
        some CxxExcClass.runtimeError) :=
  connectionError_is_runtime_error
    ⟨CxxExcClass.connectionError, "rejected"⟩ (by rfl)

/-- C6: For every modelled operation on MemcachedConnection (and the
ConnectionMap lookup) and every execution that fails, the failure is
signalled by exactly one exception value — classified either as a
ConnectionError (server rejection) or as a generic failure
(transport/precondition problem) — and no single failing operation raises
both a generic failure and a ConnectionError. -/
theorem failing_ops_single_error_class (st : ConnState) (b : Bool)
    (key value ua uav comment : String) (serverMechs : Option String)
    (f : Frame) (L : Nat) (m : List ConnEntry) (p : Protocol) (s : Bool)
    (fam pt : Nat) :
    raisesOneErrorClass (setSynchronous st b) ∧
    raisesOneErrorClass (ioctl_get st key) ∧
    raisesOneErrorClass (ioctl_set st key value) ∧
    raisesOneErrorClass (hello st ua uav comment serverMechs) ∧
    raisesOneErrorClass (sendPartialFrame f L) ∧
    raisesOneErrorClass (getConnection m p s fam pt) :=
  ⟨fun e _ => exc_class_exclusive e, fun e _ => exc_class_exclusive e,
   fun e _ => exc_class_exclusive e, fun e _ => exc_class_exclusive e,
   fun e _ => exc_class_exclusive e, fun e _ => exc_class_exclusive e⟩

/-- C6 witness: the concrete failing execution `ioctl_get` raises the one
exception `std::invalid_argument("Not implemented")`, which is a generic
failure and not also a ConnectionError. -/
theorem failing_ops_single_error_class_witness :
    ((⟨CxxExcClass.invalidArgument, "Not implemented"⟩ :
        CxxException).isConnectionError = true ∨
      (⟨CxxExcClass.invalidArgument, "Not implemented"⟩ :
        CxxException).isGenericFailure = true) ∧
    ¬((⟨CxxExcClass.invalidArgument, "Not implemented"⟩ :
        CxxException).isConnectionError = true ∧
      (⟨CxxExcClass.invalidArgument, "Not implemented"⟩ :
        CxxException).isGenericFailure = true) :=
  (failing_ops_single_error_class
    (mkConnection "localhost" 11210 2 false Protocol.Memcached) false
    "key" "value" "testapp" "1.0" "" none (Frame.mk []) 0 []
    Protocol.Memcached false 2 0).2.1
    ⟨CxxExcClass.invalidArgument, "Not implemented"⟩ rfl
